import Mathlib

/-!
Verification of the webhook ingestion pipeline of `postgrest-mcp`.

The development shallowly embeds:

* `src/src/utils/webhook.ts` — `computeWebhookSignature` / `verifyWebhookSignature`,
  including a concrete translation of the platform primitives they invoke
  (HMAC-SHA256 per FIPS 180-4 / RFC 2104, base64 as produced by `btoa`,
  UTF-8 encoding as produced by `TextEncoder`), validated below against an
  RFC 4231 test vector;
* the webhook receiver handler — the two handler variants (`handleWebhook`
  backed by PostgREST and `handleHook` backed by Kysely) share the identical
  decision logic, key derivation, filtering and write routing, so a single
  embedding covers both.  External effects (ledger writes, table writes) are
  returned as data; external reads (receiver directory, table catalog,
  ledger, JSON parsing, store write success) are inputs.
-/

/-! ## Bit-level helpers (32-bit words as naturals) -/

/-- Reduce a natural number to a 32-bit word. -/
def w32 (x : Nat) : Nat := x % 4294967296

/-- Right rotation of a 32-bit word by `n` bits. -/
def rotr (n x : Nat) : Nat := w32 ((x >>> n) ||| (x <<< (32 - n)))

/-! ## SHA-256 (FIPS 180-4) over byte lists -/

/-- The 64 SHA-256 round constants. -/
def sha256K : List Nat :=
  [1116352408, 1899447441, 3049323471, 3921009573, 961987163, 1508970993,
   2453635748, 2870763221, 3624381080, 310598401, 607225278, 1426881987,
   1925078388, 2162078206, 2614888103, 3248222580, 3835390401, 4022224774,
   264347078, 604807628, 770255983, 1249150122, 1555081692, 1996064986,
   2554220882, 2821834349, 2952996808, 3210313671, 3336571891, 3584528711,
   113926993, 338241895, 666307205, 773529912, 1294757372, 1396182291,
   1695183700, 1986661051, 2177026350, 2456956037, 2730485921, 2820302411,
   3259730800, 3345764771, 3516065817, 3600352804, 4094571909, 275423344,
   430227734, 506948616, 659060556, 883997877, 958139571, 1322822218,
   1537002063, 1747873779, 1955562222, 2024104815, 2227730452, 2361852424,
   2428436474, 2756734187, 3204031479, 3329325298]

/-- The SHA-256 initial hash state. -/
def sha256H0 : List Nat :=
  [1779033703, 3144134277, 1013904242, 2773480762, 1359893119, 2600822924,
   528734635, 1541459225]

/-- Big-endian 8-byte encoding of a natural number. -/
def be64 (n : Nat) : List Nat :=
  [(n >>> 56) &&& 255, (n >>> 48) &&& 255, (n >>> 40) &&& 255, (n >>> 32) &&& 255,
   (n >>> 24) &&& 255, (n >>> 16) &&& 255, (n >>> 8) &&& 255, n &&& 255]

/-- SHA-256 padding: append 0x80, zeros to 56 mod 64, then the 64-bit bit length. -/
def sha256Pad (msg : List Nat) : List Nat :=
  let len := msg.length
  let padZeros := (64 + 55 - len % 64) % 64
  msg ++ [0x80] ++ List.replicate padZeros 0 ++ be64 (8 * len)

/-- Group a byte list into big-endian 32-bit words. -/
def bytesToWords : List Nat → List Nat
  | a :: b :: c :: d :: rest => ((a <<< 24) ||| (b <<< 16) ||| (c <<< 8) ||| d) :: bytesToWords rest
  | _ => []

/-- Split a list into chunks of 64 elements (fuel-indexed so termination is evident). -/
def chunks64Aux : Nat → List Nat → List (List Nat)
  | 0, _ => []
  | _ + 1, [] => []
  | n + 1, l => l.take 64 :: chunks64Aux n (l.drop 64)

/-- Split a byte list into 64-byte blocks. -/
def chunks64 (l : List Nat) : List (List Nat) := chunks64Aux l.length l

/-- Extend the 16 message-schedule words of one block to 64. -/
def sha256Schedule (w16 : List Nat) : List Nat :=
  let step : Array Nat → Nat → Array Nat := fun w _ =>
    let i := w.size
    let x15 := w.getD (i - 15) 0
    let x2 := w.getD (i - 2) 0
    let x16 := w.getD (i - 16) 0
    let x7 := w.getD (i - 7) 0
    let s0 := rotr 7 x15 ^^^ rotr 18 x15 ^^^ (x15 >>> 3)
    let s1 := rotr 17 x2 ^^^ rotr 19 x2 ^^^ (x2 >>> 10)
    w.push (w32 (x16 + s0 + x7 + s1))
  ((List.range 48).foldl step w16.toArray).toList

/-- One SHA-256 round on the 8-word working state. -/
def sha256Round (st : List Nat) (wk : Nat × Nat) : List Nat :=
  match st with
  | [va, vb, vc, vd, ve, vf, vg, vh] =>
    let s1 := rotr 6 ve ^^^ rotr 11 ve ^^^ rotr 25 ve
    let ch := (ve &&& vf) ^^^ ((4294967295 ^^^ ve) &&& vg)
    let t1 := w32 (vh + s1 + ch + wk.2 + wk.1)
    let s0 := rotr 2 va ^^^ rotr 13 va ^^^ rotr 22 va
    let mj := (va &&& vb) ^^^ (va &&& vc) ^^^ (vb &&& vc)
    let t2 := w32 (s0 + mj)
    [w32 (t1 + t2), va, vb, vc, w32 (vd + t1), ve, vf, vg]
  | other => other

/-- Compress one 64-byte block into the hash state. -/
def sha256Compress (h : List Nat) (block : List Nat) : List Nat :=
  let w := sha256Schedule (bytesToWords block)
  let st := (w.zip sha256K).foldl sha256Round h
  (h.zip st).map (fun p => w32 (p.1 + p.2))

/-- SHA-256 of a byte list, as a 32-byte list. -/
def sha256 (msg : List Nat) : List Nat :=
  let final := (chunks64 (sha256Pad msg)).foldl sha256Compress sha256H0
  final.foldr (fun wrd acc =>
    ((wrd >>> 24) &&& 255) :: ((wrd >>> 16) &&& 255) :: ((wrd >>> 8) &&& 255) :: (wrd &&& 255) :: acc) []

/-- HMAC-SHA256 (RFC 2104) over byte lists, block size 64.  This is what
`crypto.subtle.sign` with `\x7b name: HMAC, hash: SHA-256 \x7d` computes. -/
def hmacSha256 (key msg : List Nat) : List Nat :=
  let k0 := if 64 < key.length then sha256 key else key
  let kpad := k0 ++ List.replicate (64 - k0.length) 0
  let ipad := kpad.map (fun b => b ^^^ 0x36)
  let opad := kpad.map (fun b => b ^^^ 0x5c)
  sha256 (opad ++ sha256 (ipad ++ msg))

/-! ## UTF-8 and base64 -/

/-- UTF-8 encoding of one code point. -/
def utf8EncodeChar (c : Nat) : List Nat :=
  if c < 0x80 then [c]
  else if c < 0x800 then [0xC0 + c / 64, 0x80 + c % 64]
  else if c < 0x10000 then [0xE0 + c / 4096, 0x80 + (c / 64) % 64, 0x80 + c % 64]
  else [0xF0 + c / 262144, 0x80 + (c / 4096) % 64, 0x80 + (c / 64) % 64, 0x80 + c % 64]

/-- UTF-8 bytes of a string, as produced by `TextEncoder.encode`. -/
def utf8Bytes (s : String) : List Nat :=
  s.data.foldr (fun ch acc => utf8EncodeChar ch.toNat ++ acc) []

/-- The base64 alphabet. -/
def base64Alphabet : List Char :=
  "ABCDEFGHIJKLMNOPQRSTUVWXYZabcdefghijklmnopqrstuvwxyz0123456789+/".data

/-- Character for a 6-bit group. -/
def b64c (n : Nat) : Char := base64Alphabet.getD n 'A'

/-- Base64 encoding of a byte list into characters (with padding), as `btoa` produces. -/
def base64Chunks : List Nat → List Char
  | b0 :: b1 :: b2 :: rest =>
      b64c (b0 >>> 2) :: b64c (((b0 &&& 3) <<< 4) ||| (b1 >>> 4)) ::
      b64c (((b1 &&& 15) <<< 2) ||| (b2 >>> 6)) :: b64c (b2 &&& 63) :: base64Chunks rest
  | [b0, b1] => [b64c (b0 >>> 2), b64c (((b0 &&& 3) <<< 4) ||| (b1 >>> 4)), b64c ((b1 &&& 15) <<< 2), '=']
  | [b0] => [b64c (b0 >>> 2), b64c ((b0 &&& 3) <<< 4), '=', '=']
  | [] => []

/-- Base64 encoding of a byte list as a string. -/
def base64Encode (bytes : List Nat) : String := String.mk (base64Chunks bytes)

/-! ## Signature codec (src/src/utils/webhook.ts) -/

/-- Webhook signature: the literal `v1,` followed by the base64 HMAC-SHA256 of
`webhookId.webhookTimestamp.body` keyed by the UTF-8 bytes of `secret`
(translation of `computeWebhookSignature`). -/
def computeWebhookSignature (webhookId webhookTimestamp body secret : String) : String :=
  let message := webhookId ++ "." ++ webhookTimestamp ++ "." ++ body
  "v1," ++ base64Encode (hmacSha256 (utf8Bytes secret) (utf8Bytes message))

/-- Recompute and compare exactly (translation of `verifyWebhookSignature`). -/
def verifyWebhookSignature (webhookId webhookTimestamp body secret providedSignature : String) : Bool :=
  computeWebhookSignature webhookId webhookTimestamp body secret == providedSignature

/-! ## Data model (interfaces in the handler sources and §3 of the schema) -/

/-- A parsed JSON value, the result of `JSON.parse` on the delivery body. -/
inductive Json where
  | null : Json
  | bool : Bool → Json
  | num : Int → Json
  | str : String → Json
  | arr : List Json → Json
  | obj : List (String × Json) → Json

/-- One `webhook_receivers` row (interface `WebhookReceiver`). -/
structure WebhookReceiver where
  id : Nat
  label : String
  table_name : String
  auth_type : String
  secret : Option String
deriving DecidableEq

/-- One `tables` row (interface `TableMetadata`). -/
structure TableMetadata where
  table_name : String
  id_column : Option String
deriving DecidableEq

/-- One `fields` row (interface `FieldMetadata`, plus the `table_name` the
handlers filter on in their catalog query). -/
structure FieldMetadata where
  table_name : String
  field_name : String
  format : String
  is_pk : Bool
  is_nullable : Bool
deriving DecidableEq

/-- One `webhook_receiver_logs` row as written by `logWebhookAttempt`.
The source stores the timestamp as `new Date(parseInt(ts) * 1000)`; the raw
header string is kept here since no claim depends on that conversion. -/
structure LogEntry where
  webhook_receiver_id : Nat
  webhook_id : String
  webhook_timestamp_str : String
  payload_headers : List (String × String)
  payload_body : String
  result : Nat
  error_message : Option String
deriving DecidableEq

/-- A mutation of the target table issued by the handler: a plain insert, or
an insert with on-conflict update on the identity column. -/
inductive WriteOp where
  | insert : String → List (String × Json) → WriteOp
  | upsert : String → String → List (String × Json) → WriteOp

/-- An HTTP response: status and the JSON body text as `c.json` serializes it. -/
structure Response where
  status : Nat
  body : String
deriving DecidableEq

/-- The observable outcome of one handler run: the HTTP response, the ledger
entries whose insertion the handler requested (in order), and the target-table
write operations it issued. -/
structure HandlerResult where
  response : Response
  newLogs : List LogEntry
  writes : List WriteOp

/-- The inbound envelope `\x7b headers, body \x7d`; `none` models an absent
(undefined or null, hence falsy) field. -/
structure WebhookRequest where
  headers? : Option (List (String × String))
  body? : Option String

/-- The read-only store state the handler consults: the receiver directory,
the table catalog, the field catalog and the existing ledger. -/
structure Store where
  receivers : List WebhookReceiver
  tables : List TableMetadata
  fields : List FieldMetadata
  logs : List LogEntry

/-- Ambient inputs of one run: the server clock (epoch seconds), the result of
`JSON.parse` on a body string (a platform primitive, hence an input), and the
outcome of the target-table write (`none` = success, `some msg` = the store
error message after the handler's `error.message` defaulting). -/
structure Env where
  now : Nat
  parseJson : String → Option Json
  insertError? : Option String

/-! ## JavaScript-semantics helpers -/

/-- Truthiness of a possibly-absent string: JS treats undefined, null and the
empty string as falsy. -/
def strTruthy : Option String → Bool
  | none => false
  | some s => s != ""

/-- Enumeration of a parsed JSON value as JS `for (key in v)` sees it:
an object yields its keys, an array its index strings, a string its
character-index strings, and primitives nothing. -/
def jsonEntries : Json → List (String × Json)
  | .obj fs => fs
  | .arr xs => xs.enum.map (fun p => (toString p.1, p.2))
  | .str s => s.data.enum.map (fun p => (toString p.1, Json.str (String.mk [p.2])))
  | _ => []

/-- Property read `v[k]` on a parsed JSON value; `none` models undefined. -/
def jsonGet (v : Json) (k : String) : Option Json :=
  match v with
  | .obj fs => (fs.find? (fun kv => kv.1 == k)).map (fun kv => kv.2)
  | .arr xs =>
    match k.toNat? with
    | some i => xs.get? i
    | none => none
  | .str s =>
    match k.toNat? with
    | some i => (s.data.get? i).map (fun c => Json.str (String.mk [c]))
    | none => none
  | _ => none

/-- JS `x !== undefined && x !== null` on a property read. -/
def jsDefinedNonNull : Option Json → Bool
  | none => false
  | some Json.null => false
  | some _ => true

/-! ## Request decomposition (handler lines 44-63) -/

/-- Character-wise ASCII lowercasing (what `toLowerCase` does on the ASCII
header names involved), implemented by structural recursion on the character
list. -/
def toLowerStr (s : String) : String := String.mk (s.data.map Char.toLower)

/-- Lowercase all header names (the handler's case-insensitive normalization). -/
def normalizeHeaders (hs : List (String × String)) : List (String × String) :=
  hs.map (fun kv => (toLowerStr kv.1, kv.2))

/-- Header lookup after normalization; a later duplicate assignment wins, as
in the JS object the handler builds. -/
def getHeader (hs : List (String × String)) (k : String) : Option String :=
  (hs.reverse.find? (fun kv => kv.1 == k)).map (fun kv => kv.2)

/-- The normalized header map of a request. -/
def reqHeaders (req : WebhookRequest) : List (String × String) :=
  normalizeHeaders (req.headers?.getD [])

/-- The `webhook-id` header. -/
def reqWebhookId (req : WebhookRequest) : Option String :=
  getHeader (reqHeaders req) "webhook-id"

/-- The `webhook-signature` header. -/
def reqSignature (req : WebhookRequest) : Option String :=
  getHeader (reqHeaders req) "webhook-signature"

/-- The timestamp string: the `webhook-timestamp` header, defaulting to the
current server time in epoch seconds when absent or empty (JS `||`). -/
def reqTsStr (env : Env) (req : WebhookRequest) : String :=
  match getHeader (reqHeaders req) "webhook-timestamp" with
  | some s => if s == "" then toString env.now else s
  | none => toString env.now

/-! ## Response bodies, exactly as `c.json` serializes them -/

/-- A one-field error body. -/
def jsonError (msg : String) : String := "\x7b\"error\":\"" ++ msg ++ "\"\x7d"

/-- Body of the duplicate-delivery response. -/
def duplicateBody : String := "\x7b\"success\":true,\"message\":\"Duplicate request ignored\"\x7d"

/-- Body of the success response. -/
def successBody : String := "\x7b\"success\":true\x7d"

/-- Body of the write-failure response (assumes the detail message needs no
JSON string escaping, which holds for the plain messages used here). -/
def insertFailedBody (details : String) : String :=
  "\x7b\"error\":\"Failed to insert/upsert data\",\"details\":\"" ++ details ++ "\"\x7d"

/-! ## The ingestion pipeline -/

/-- The ledger entry `logWebhookAttempt` writes. -/
def logWebhookAttempt (rid : Nat) (key tsStr : String) (headers : List (String × String))
    (body : String) (result : Nat) (err : Option String) : LogEntry :=
  ⟨rid, key, tsStr, headers, body, result, err⟩

/-- Idempotency-key computation, translated from handler lines 62-63 (initial
assignment), 107-118 (the non-hmac recomputation) and 120-137 (the two
fallbacks).  In hmac mode the handler only reaches the later steps after
verification, but the key value itself is this pure function of the inputs. -/
def deriveIdempotencyKey (rid : Nat) (webhookId webhookSignature : Option String)
    (tsStr body : String) (receiver : WebhookReceiver) : String :=
  let k0 := if strTruthy webhookId then webhookId.getD "" else ""
  let k1 :=
    if receiver.auth_type == "hmac" then k0
    else if strTruthy receiver.secret && strTruthy webhookId then
      computeWebhookSignature (webhookId.getD "") tsStr body (receiver.secret.getD "")
    else k0
  let k2 := if k1 == "" && strTruthy webhookSignature then webhookSignature.getD "" else k1
  if k2 == "" then
    let idempotencySource := toString rid ++ "-" ++ tsStr ++ "-" ++ body
    computeWebhookSignature (if strTruthy webhookId then webhookId.getD "" else "anon") tsStr body
      (if strTruthy receiver.secret then receiver.secret.getD "" else idempotencySource)
  else k2

/-- The authentication step (handler lines 77-118) as a predicate: hmac mode
requires a configured secret, both headers, and a verifying signature; any
other auth mode always passes. -/
def authPasses (receiver : WebhookReceiver) (webhookId webhookSignature : Option String)
    (tsStr body : String) : Bool :=
  if receiver.auth_type == "hmac" then
    strTruthy receiver.secret && strTruthy webhookId && strTruthy webhookSignature &&
      verifyWebhookSignature (webhookId.getD "") tsStr body (receiver.secret.getD "")
        (webhookSignature.getD "")
  else true

/-- Row filtering (handler lines 195-201): keep exactly the enumerated payload
entries whose key is in the table's field-name set, in order. -/
def buildInsertData (data : Json) (fieldNames : List String) : List (String × Json) :=
  (jsonEntries data).foldl (fun acc kv => if fieldNames.contains kv.1 then acc ++ [kv] else acc) []

/-- The upsert condition (handler line 207): `idColumn && data[idColumn] !==
undefined && data[idColumn] !== null`, with JS truthiness on the column name. -/
def hasIdValue (idCol : Option String) (data : Json) : Bool :=
  strTruthy idCol && jsDefinedNonNull (jsonGet data (idCol.getD ""))

/-- Field names of a table in the catalog. -/
def tableFieldNames (store : Store) (tbl : String) : List String :=
  (store.fields.filter (fun f => f.table_name == tbl)).map (fun f => f.field_name)

/-- The post-authentication pipeline (handler lines 120-252): derive the key,
check the ledger for a duplicate, parse the body, resolve table metadata,
filter the payload, route to insert or upsert, and record the outcome. -/
def processAfterAuth (env : Env) (store : Store) (rid : Nat) (req : WebhookRequest)
    (receiver : WebhookReceiver) : HandlerResult :=
  let headers := reqHeaders req
  let tsStr := reqTsStr env req
  let body := req.body?.getD ""
  let key := deriveIdempotencyKey rid (reqWebhookId req) (reqSignature req) tsStr body receiver
  if store.logs.any (fun e => e.webhook_receiver_id == rid && e.webhook_id == key) then
    ⟨⟨200, duplicateBody⟩, [], []⟩
  else
    match env.parseJson body with
    | none =>
      ⟨⟨400, jsonError "Invalid JSON in body"⟩,
        [logWebhookAttempt rid key tsStr headers body 30 (some "Invalid JSON in body")], []⟩
    | some webhookData =>
      match store.tables.find? (fun t => t.table_name == receiver.table_name) with
      | none =>
        ⟨⟨404, jsonError ("Table metadata not found for " ++ receiver.table_name)⟩,
          [logWebhookAttempt rid key tsStr headers body 40
            (some ("Table metadata not found for " ++ receiver.table_name))], []⟩
      | some tmeta =>
        let insertData := buildInsertData webhookData (tableFieldNames store receiver.table_name)
        let wop :=
          if hasIdValue tmeta.id_column webhookData then
            WriteOp.upsert receiver.table_name (tmeta.id_column.getD "") insertData
          else
            WriteOp.insert receiver.table_name insertData
        match env.insertError? with
        | none => ⟨⟨200, successBody⟩, [logWebhookAttempt rid key tsStr headers body 10 none], [wop]⟩
        | some msg =>
          ⟨⟨500, insertFailedBody msg⟩,
            [logWebhookAttempt rid key tsStr headers body 50 (some msg)], [wop]⟩

/-- The per-receiver pipeline (handler lines 77-252): authenticate, then the
shared post-authentication pipeline.  A failed hmac verification writes the
code-20 ledger entry keyed by the delivery identifier and answers 401. -/
def processReceiver (env : Env) (store : Store) (rid : Nat) (req : WebhookRequest)
    (receiver : WebhookReceiver) : HandlerResult :=
  let headers := reqHeaders req
  let webhookId := reqWebhookId req
  let tsStr := reqTsStr env req
  let sig := reqSignature req
  let body := req.body?.getD ""
  if receiver.auth_type == "hmac" then
    if !strTruthy receiver.secret then
      ⟨⟨500, jsonError "HMAC secret not configured"⟩, [], []⟩
    else if !strTruthy webhookId || !strTruthy sig then
      ⟨⟨400, jsonError "Missing webhook-id or webhook-signature for HMAC validation"⟩, [], []⟩
    else if !verifyWebhookSignature (webhookId.getD "") tsStr body (receiver.secret.getD "")
        (sig.getD "") then
      ⟨⟨401, jsonError "Signature verification failed"⟩,
        [logWebhookAttempt rid (webhookId.getD "") tsStr headers body 20
          (some "Signature verification failed")], []⟩
    else processAfterAuth env store rid req receiver
  else processAfterAuth env store rid req receiver

/-- The full handler (`handleWebhook` in part_004, `handleHook` in part_005):
envelope validation, receiver resolution, then the per-receiver pipeline. -/
def handleWebhook (env : Env) (store : Store) (rid : Nat) (req : WebhookRequest) : HandlerResult :=
  if req.headers?.isNone || !strTruthy req.body? then
    ⟨⟨400, jsonError "Missing required fields: headers and body"⟩, [], []⟩
  else
    match store.receivers.find? (fun r => r.id == rid) with
    | none => ⟨⟨404, jsonError "Webhook receiver not found"⟩, [], []⟩
    | some receiver => processReceiver env store rid req receiver

/-! ## Claim-side definitions (phrased from the spec, for comparison) -/

/-- Claim C1's derivation order, formalized exactly as the claim states it:
(a) hmac mode uses the delivery identifier; (b) else a configured secret plus
a present identifier gives the computed signature; (c) else a supplied
signature header is used verbatim; (d) else a signature computed over the
same triple using as secret the concatenation of receiver id, timestamp and
body. -/
def claimC1Key (rid : Nat) (webhookId webhookSignature : Option String)
    (tsStr body : String) (receiver : WebhookReceiver) : String :=
  if receiver.auth_type == "hmac" then webhookId.getD ""
  else if strTruthy receiver.secret && strTruthy webhookId then
    computeWebhookSignature (webhookId.getD "") tsStr body (receiver.secret.getD "")
  else if strTruthy webhookSignature then webhookSignature.getD ""
  else computeWebhookSignature (webhookId.getD "") tsStr body (toString rid ++ tsStr ++ body)

/-- The amended derivation order, as the code actually computes it:
(a) hmac mode uses the delivery identifier; (b) else a configured secret plus
a present identifier gives the computed signature; (c) else a present
identifier is itself the key; (d) else a supplied signature header is used
verbatim; (e) else the key is a signature computed with identifier `anon`
over the timestamp and body, keyed by the receiver's secret when configured
and otherwise by `receiverId-timestamp-body` joined with hyphens. -/
def amendedC1Key (rid : Nat) (webhookId webhookSignature : Option String)
    (tsStr body : String) (receiver : WebhookReceiver) : String :=
  if receiver.auth_type == "hmac" then webhookId.getD ""
  else if strTruthy receiver.secret && strTruthy webhookId then
    computeWebhookSignature (webhookId.getD "") tsStr body (receiver.secret.getD "")
  else if strTruthy webhookId then webhookId.getD ""
  else if strTruthy webhookSignature then webhookSignature.getD ""
  else
    computeWebhookSignature "anon" tsStr body
      (if strTruthy receiver.secret then receiver.secret.getD ""
       else toString rid ++ "-" ++ tsStr ++ "-" ++ body)

/-- Claim C5's upsert condition, phrased from the spec: the table declares an
identity column and the raw parsed payload carries a defined, non-null value
for that column. -/
def specUpsertCondition (tmeta : TableMetadata) (rawPayload : Json) : Bool :=
  match tmeta.id_column with
  | none => false
  | some c => c != "" && jsDefinedNonNull (jsonGet rawPayload c)

/-! ## Basic lemmas -/

/-- Truthiness of an optional string in terms of its default-extracted value. -/
theorem strTruthy_iff (o : Option String) : strTruthy o = true ↔ o.getD "" ≠ "" := by
  cases o <;> simp [strTruthy]

/-- A computed signature always starts with the `v1,` prefix and is never empty. -/
theorem computeWebhookSignature_ne_empty (a b c d : String) :
    computeWebhookSignature a b c d ≠ "" := by
  intro h
  have h2 := congrArg String.length h
  rw [computeWebhookSignature] at h2
  simp [String.length_append] at h2
  exact absurd h2.1 (by decide)

set_option maxRecDepth 40000

/-- The RFC 4231 test case 2 vector, grounding the `hmacSha256` translation in
the standard HMAC-SHA256 algorithm. -/
theorem hmacSha256_rfc4231_case2 :
    hmacSha256 (utf8Bytes "Jefe") (utf8Bytes "what do ya want for nothing?") =
      [0x5b, 0xdc, 0xc1, 0x46, 0xbf, 0x60, 0x75, 0x4e, 0x6a, 0x04, 0x24, 0x26, 0x08, 0x95, 0x75, 0xc7,
       0x5a, 0x00, 0x3f, 0x08, 0x9d, 0x27, 0x39, 0x83, 0x9d, 0xec, 0x58, 0xb9, 0x64, 0xec, 0x38, 0x43] := by
  decide

/-! ## Claim theorems -/

/-- Claim C3: for all inputs, `computeWebhookSignature` returns the literal
prefix `v1,` followed by the base64 encoding of the HMAC-SHA256 of the
canonical message `deliveryId + "." + timestamp + "." + body`, keyed by the
raw (UTF-8) bytes of the secret; it is a pure function of its four inputs. -/
theorem C3_compute_signature_shape (webhookId webhookTimestamp body secret : String) :
    computeWebhookSignature webhookId webhookTimestamp body secret =
      "v1," ++ base64Encode (hmacSha256 (utf8Bytes secret)
        (utf8Bytes (webhookId ++ "." ++ webhookTimestamp ++ "." ++ body))) := rfl

/-- Claim C4: `verifyWebhookSignature` returns true exactly when the candidate
equals the recomputed signature, and in particular accepts the recomputed
signature itself. -/
theorem C4_verify_iff_recompute (webhookId webhookTimestamp body secret candidate : String) :
    (verifyWebhookSignature webhookId webhookTimestamp body secret candidate = true ↔
      computeWebhookSignature webhookId webhookTimestamp body secret = candidate) ∧
    verifyWebhookSignature webhookId webhookTimestamp body secret
      (computeWebhookSignature webhookId webhookTimestamp body secret) = true := by
  constructor
  · simp [verifyWebhookSignature]
  · simp [verifyWebhookSignature]

/-- Claim C8: a structurally valid request whose receiver id matches no
receiver row is answered 404 with the receiver-not-found body, and no ledger
entry and no table write is produced for it. -/
theorem C8_receiver_not_found (env : Env) (store : Store) (rid : Nat) (req : WebhookRequest)
    (hok : (req.headers?.isNone || !strTruthy req.body?) = false)
    (hrecv : store.receivers.find? (fun r => r.id == rid) = none) :
    handleWebhook env store rid req =
      ⟨⟨404, "\x7b\"error\":\"Webhook receiver not found\"\x7d"⟩, [], []⟩ := by
  unfold handleWebhook
  rw [hok, hrecv]
  rfl

/-- Witness for C8: a concrete request for an unknown receiver id. -/
theorem C8_witness :
    handleWebhook ⟨1000, fun _ => none, none⟩ ⟨[], [], [], []⟩ 999999
        ⟨some [("webhook-id", "id1")], some "b"⟩ =
      ⟨⟨404, "\x7b\"error\":\"Webhook receiver not found\"\x7d"⟩, [], []⟩ :=
  C8_receiver_not_found ⟨1000, fun _ => none, none⟩ ⟨[], [], [], []⟩ 999999
    ⟨some [("webhook-id", "id1")], some "b"⟩ (by decide) rfl

/-- A string with a nonempty value never tests equal to the empty string. -/
theorem getD_beq_empty_false (o : Option String) (h : strTruthy o = true) :
    (o.getD "" == "") = false :=
  beq_eq_false_iff_ne.mpr ((strTruthy_iff o).mp h)

/-- A computed signature never tests equal to the empty string. -/
theorem compute_beq_empty_false (a b c d : String) :
    (computeWebhookSignature a b c d == "") = false :=
  beq_eq_false_iff_ne.mpr (computeWebhookSignature_ne_empty a b c d)

/-- Counterexample to claim C1 as stated: an authenticated delivery (auth mode
`none`) with no configured secret, a present delivery identifier `id1` and a
supplied signature header `sig1` derives the key `id1` (the identifier), while
the claim's step (c) would use the signature header `sig1` verbatim. -/
theorem C1_counterexample :
    authPasses ⟨7, "r", "t", "none", none⟩ (some "id1") (some "sig1") "100" "b" = true ∧
    deriveIdempotencyKey 7 (some "id1") (some "sig1") "100" "b" ⟨7, "r", "t", "none", none⟩ = "id1" ∧
    claimC1Key 7 (some "id1") (some "sig1") "100" "b" ⟨7, "r", "t", "none", none⟩ = "sig1" ∧
    deriveIdempotencyKey 7 (some "id1") (some "sig1") "100" "b" ⟨7, "r", "t", "none", none⟩ ≠
      claimC1Key 7 (some "id1") (some "sig1") "100" "b" ⟨7, "r", "t", "none", none⟩ := by
  refine ⟨rfl, rfl, rfl, ?_⟩
  decide

/-- Claim C1 (amended): for every delivery that passes authentication, the
idempotency key follows the priority order of `amendedC1Key`: (a) hmac mode
uses the delivery identifier; (b) else a configured secret plus a present
identifier gives the computed signature; (c) else a present identifier is
itself the key; (d) else a supplied signature header is used verbatim;
(e) else a content-derived signature with identifier `anon` is computed,
keyed by the secret when configured and by `receiverId-timestamp-body`
otherwise. -/
theorem C1_key_priority (rid : Nat) (webhookId webhookSignature : Option String)
    (tsStr body : String) (receiver : WebhookReceiver)
    (hauth : authPasses receiver webhookId webhookSignature tsStr body = true) :
    deriveIdempotencyKey rid webhookId webhookSignature tsStr body receiver =
      amendedC1Key rid webhookId webhookSignature tsStr body receiver := by
  unfold deriveIdempotencyKey amendedC1Key
  unfold authPasses at hauth
  by_cases hm : (receiver.auth_type == "hmac") = true
  · simp only [hm, if_true] at hauth ⊢
    simp only [Bool.and_eq_true] at hauth
    obtain ⟨⟨⟨-, hid⟩, -⟩, -⟩ := hauth
    simp [hid, getD_beq_empty_false _ hid]
  · simp only [Bool.not_eq_true] at hm
    simp only [hm, Bool.false_eq_true, if_false]
    by_cases hsid : (strTruthy receiver.secret && strTruthy webhookId) = true
    · simp [hsid, compute_beq_empty_false]
    · simp only [hsid, Bool.false_eq_true, if_false]
      by_cases hid : strTruthy webhookId = true
      · simp [hid, getD_beq_empty_false _ hid]
      · simp only [Bool.not_eq_true] at hid
        simp only [hid, Bool.false_eq_true, if_false]
        by_cases hsg : strTruthy webhookSignature = true
        · simp [hsg, getD_beq_empty_false _ hsg]
        · simp only [Bool.not_eq_true] at hsg
          simp [hsg]

/-- Witness for C1 (amended) at a concrete authenticated delivery hitting
branch (c): identifier present, no secret, signature header present. -/
theorem C1_key_priority_witness :
    deriveIdempotencyKey 7 (some "id1") (some "sig1") "100" "b" ⟨7, "r", "t", "none", none⟩ =
      amendedC1Key 7 (some "id1") (some "sig1") "100" "b" ⟨7, "r", "t", "none", none⟩ :=
  C1_key_priority 7 (some "id1") (some "sig1") "100" "b" ⟨7, "r", "t", "none", none⟩ (by decide)

/-- A structurally valid request with a matched receiver runs the per-receiver
pipeline. -/
theorem handleWebhook_eq_processReceiver (env : Env) (store : Store) (rid : Nat)
    (req : WebhookRequest) (receiver : WebhookReceiver)
    (hok : (req.headers?.isNone || !strTruthy req.body?) = false)
    (hrecv : store.receivers.find? (fun r => r.id == rid) = some receiver) :
    handleWebhook env store rid req = processReceiver env store rid req receiver := by
  unfold handleWebhook
  rw [hok, hrecv]
  rfl

/-- When authentication passes, the per-receiver pipeline runs the shared
post-authentication pipeline. -/
theorem processReceiver_eq_processAfterAuth (env : Env) (store : Store) (rid : Nat)
    (req : WebhookRequest) (receiver : WebhookReceiver)
    (hauth : authPasses receiver (reqWebhookId req) (reqSignature req) (reqTsStr env req)
      (req.body?.getD "") = true) :
    processReceiver env store rid req receiver = processAfterAuth env store rid req receiver := by
  unfold processReceiver
  unfold authPasses at hauth
  by_cases hm : (receiver.auth_type == "hmac") = true
  · simp only [hm, if_true] at hauth ⊢
    simp only [Bool.and_eq_true] at hauth
    obtain ⟨⟨⟨hsec, hid⟩, hsg⟩, hver⟩ := hauth
    simp [hsec, hid, hsg, hver]
  · simp only [Bool.not_eq_true] at hm
    simp [hm]

/-- A ledger hit on the derived key short-circuits the post-authentication
pipeline into the duplicate response, with no new ledger entry and no write. -/
theorem processAfterAuth_duplicate (env : Env) (store : Store) (rid : Nat)
    (req : WebhookRequest) (receiver : WebhookReceiver)
    (hdup : store.logs.any (fun e => e.webhook_receiver_id == rid &&
      e.webhook_id == deriveIdempotencyKey rid (reqWebhookId req) (reqSignature req)
        (reqTsStr env req) (req.body?.getD "") receiver) = true) :
    processAfterAuth env store rid req receiver = ⟨⟨200, duplicateBody⟩, [], []⟩ := by
  unfold processAfterAuth
  simp only [hdup, if_true]

/-- Combined duplicate-path lemma for the full handler. -/
theorem handleWebhook_duplicate (env : Env) (store : Store) (rid : Nat)
    (req : WebhookRequest) (receiver : WebhookReceiver)
    (hok : (req.headers?.isNone || !strTruthy req.body?) = false)
    (hrecv : store.receivers.find? (fun r => r.id == rid) = some receiver)
    (hauth : authPasses receiver (reqWebhookId req) (reqSignature req) (reqTsStr env req)
      (req.body?.getD "") = true)
    (hdup : store.logs.any (fun e => e.webhook_receiver_id == rid &&
      e.webhook_id == deriveIdempotencyKey rid (reqWebhookId req) (reqSignature req)
        (reqTsStr env req) (req.body?.getD "") receiver) = true) :
    handleWebhook env store rid req = ⟨⟨200, duplicateBody⟩, [], []⟩ := by
  rw [handleWebhook_eq_processReceiver env store rid req receiver hok hrecv,
    processReceiver_eq_processAfterAuth env store rid req receiver hauth,
    processAfterAuth_duplicate env store rid req receiver hdup]

/-- Claim C2: a delivery whose derived (receiver id, idempotency key) pair
already has a ledger entry is answered 200 with the duplicate marker body,
writes no new ledger entry and issues no table write. -/
theorem C2_duplicate_ignored (env : Env) (store : Store) (rid : Nat)
    (req : WebhookRequest) (receiver : WebhookReceiver)
    (hok : (req.headers?.isNone || !strTruthy req.body?) = false)
    (hrecv : store.receivers.find? (fun r => r.id == rid) = some receiver)
    (hauth : authPasses receiver (reqWebhookId req) (reqSignature req) (reqTsStr env req)
      (req.body?.getD "") = true)
    (hdup : store.logs.any (fun e => e.webhook_receiver_id == rid &&
      e.webhook_id == deriveIdempotencyKey rid (reqWebhookId req) (reqSignature req)
        (reqTsStr env req) (req.body?.getD "") receiver) = true) :
    handleWebhook env store rid req =
      ⟨⟨200, "\x7b\"success\":true,\"message\":\"Duplicate request ignored\"\x7d"⟩, [], []⟩ :=
  handleWebhook_duplicate env store rid req receiver hok hrecv hauth hdup

/-- Witness for C2: a concrete repeat delivery whose key `id1` is already in
the ledger with a success entry. -/
theorem C2_witness :
    handleWebhook ⟨1000, fun _ => none, none⟩
        ⟨[⟨7, "r", "t", "none", none⟩], [], [], [⟨7, "id1", "99", [], "", 10, none⟩]⟩ 7
        ⟨some [("webhook-id", "id1")], some "b"⟩ =
      ⟨⟨200, "\x7b\"success\":true,\"message\":\"Duplicate request ignored\"\x7d"⟩, [], []⟩ :=
  C2_duplicate_ignored ⟨1000, fun _ => none, none⟩
    ⟨[⟨7, "r", "t", "none", none⟩], [], [], [⟨7, "id1", "99", [], "", 10, none⟩]⟩ 7
    ⟨some [("webhook-id", "id1")], some "b"⟩ ⟨7, "r", "t", "none", none⟩
    (by decide) rfl (by decide) (by decide)

/-- Claim C9: once any ledger entry exists for the derived (receiver id, key)
pair — its result code is irrelevant, so failure entries (codes 20, 30, 40,
50) count — every later authenticated delivery deriving the same key is
answered with the duplicate marker, writes no new ledger entry and issues no
table write; a failed attempt permanently consumes its idempotency key. -/
theorem C9_any_entry_consumes_key (env : Env) (store : Store) (rid : Nat)
    (req : WebhookRequest) (receiver : WebhookReceiver) (e : LogEntry)
    (hok : (req.headers?.isNone || !strTruthy req.body?) = false)
    (hrecv : store.receivers.find? (fun r => r.id == rid) = some receiver)
    (hauth : authPasses receiver (reqWebhookId req) (reqSignature req) (reqTsStr env req)
      (req.body?.getD "") = true)
    (hmem : e ∈ store.logs)
    (hrid : e.webhook_receiver_id = rid)
    (hkey : e.webhook_id = deriveIdempotencyKey rid (reqWebhookId req) (reqSignature req)
      (reqTsStr env req) (req.body?.getD "") receiver) :
    handleWebhook env store rid req =
      ⟨⟨200, "\x7b\"success\":true,\"message\":\"Duplicate request ignored\"\x7d"⟩, [], []⟩ := by
  apply handleWebhook_duplicate env store rid req receiver hok hrecv hauth
  refine List.any_eq_true.mpr ⟨e, hmem, ?_⟩
  simp [hrid, hkey]

/-- Witness for C9: a corrected hmac retry — a valid signature this time —
carrying the same delivery identifier as an earlier failed attempt recorded
with result code 20 is still answered as a duplicate. -/
theorem C9_witness :
    handleWebhook ⟨1000, fun _ => none, none⟩
        ⟨[⟨7, "r", "t", "hmac", some "sek"⟩], [], [],
          [⟨7, "id1", "100", [], "b", 20, some "Signature verification failed"⟩]⟩ 7
        ⟨some [("webhook-id", "id1"), ("webhook-timestamp", "100"),
          ("webhook-signature", computeWebhookSignature "id1" "100" "b" "sek")], some "b"⟩ =
      ⟨⟨200, "\x7b\"success\":true,\"message\":\"Duplicate request ignored\"\x7d"⟩, [], []⟩ :=
  C9_any_entry_consumes_key ⟨1000, fun _ => none, none⟩
    ⟨[⟨7, "r", "t", "hmac", some "sek"⟩], [], [],
      [⟨7, "id1", "100", [], "b", 20, some "Signature verification failed"⟩]⟩ 7
    ⟨some [("webhook-id", "id1"), ("webhook-timestamp", "100"),
      ("webhook-signature", computeWebhookSignature "id1" "100" "b" "sek")], some "b"⟩
    ⟨7, "r", "t", "hmac", some "sek"⟩
    ⟨7, "id1", "100", [], "b", 20, some "Signature verification failed"⟩
    (by decide) rfl (by decide) (List.mem_singleton.mpr rfl) rfl (by decide)

/-- Claim C7: an hmac-mode delivery with a configured secret and both headers
present whose signature fails verification is answered 401 with the
signature-failed body, after writing exactly one ledger entry with result
code 20 keyed by the delivery identifier itself; no table write is issued. -/
theorem C7_signature_failed (env : Env) (store : Store) (rid : Nat)
    (req : WebhookRequest) (receiver : WebhookReceiver)
    (hok : (req.headers?.isNone || !strTruthy req.body?) = false)
    (hrecv : store.receivers.find? (fun r => r.id == rid) = some receiver)
    (hmac : receiver.auth_type = "hmac")
    (hsec : strTruthy receiver.secret = true)
    (hid : strTruthy (reqWebhookId req) = true)
    (hsig : strTruthy (reqSignature req) = true)
    (hver : verifyWebhookSignature ((reqWebhookId req).getD "") (reqTsStr env req)
      (req.body?.getD "") (receiver.secret.getD "") ((reqSignature req).getD "") = false) :
    handleWebhook env store rid req =
      ⟨⟨401, "\x7b\"error\":\"Signature verification failed\"\x7d"⟩,
       [⟨rid, (reqWebhookId req).getD "", reqTsStr env req, reqHeaders req, req.body?.getD "",
         20, some "Signature verification failed"⟩], []⟩ := by
  rw [handleWebhook_eq_processReceiver env store rid req receiver hok hrecv]
  unfold processReceiver
  simp [hmac, hsec, hid, hsig, hver, logWebhookAttempt, jsonError, duplicateBody]

/-- Witness for C7: a concrete hmac delivery carrying the non-matching
signature header `bogus`. -/
theorem C7_witness :
    handleWebhook ⟨1000, fun _ => none, none⟩ ⟨[⟨7, "r", "t", "hmac", some "sek"⟩], [], [], []⟩ 7
        ⟨some [("webhook-id", "id1"), ("webhook-timestamp", "100"),
          ("webhook-signature", "bogus")], some "b"⟩ =
      ⟨⟨401, "\x7b\"error\":\"Signature verification failed\"\x7d"⟩,
       [⟨7, "id1", "100",
         [("webhook-id", "id1"), ("webhook-timestamp", "100"), ("webhook-signature", "bogus")],
         "b", 20, some "Signature verification failed"⟩], []⟩ :=
  C7_signature_failed ⟨1000, fun _ => none, none⟩
    ⟨[⟨7, "r", "t", "hmac", some "sek"⟩], [], [], []⟩ 7
    ⟨some [("webhook-id", "id1"), ("webhook-timestamp", "100"),
      ("webhook-signature", "bogus")], some "b"⟩
    ⟨7, "r", "t", "hmac", some "sek"⟩
    (by decide) rfl rfl rfl (by decide) (by decide) (by decide)

/-- The handler's upsert test agrees with the spec-phrased condition. -/
theorem hasIdValue_eq_spec (tmeta : TableMetadata) (data : Json) :
    hasIdValue tmeta.id_column data = specUpsertCondition tmeta data := by
  unfold hasIdValue specUpsertCondition strTruthy
  cases tmeta.id_column <;> simp

/-- Claim C5: a delivery that reaches the write step issues an upsert exactly
when the table declares an identity column and the raw parsed payload carries
a defined, non-null value for it; otherwise it issues a plain insert.  The
written row is the filtered payload in both cases, and the routing is the
same whether the store write then succeeds or fails. -/
theorem C5_upsert_iff_id_value (env : Env) (store : Store) (rid : Nat)
    (req : WebhookRequest) (receiver : WebhookReceiver) (data : Json) (tmeta : TableMetadata)
    (hok : (req.headers?.isNone || !strTruthy req.body?) = false)
    (hrecv : store.receivers.find? (fun r => r.id == rid) = some receiver)
    (hauth : authPasses receiver (reqWebhookId req) (reqSignature req) (reqTsStr env req)
      (req.body?.getD "") = true)
    (hdup : store.logs.any (fun e => e.webhook_receiver_id == rid &&
      e.webhook_id == deriveIdempotencyKey rid (reqWebhookId req) (reqSignature req)
        (reqTsStr env req) (req.body?.getD "") receiver) = false)
    (hparse : env.parseJson (req.body?.getD "") = some data)
    (htbl : store.tables.find? (fun t => t.table_name == receiver.table_name) = some tmeta) :
    (handleWebhook env store rid req).writes =
      [if specUpsertCondition tmeta data then
        WriteOp.upsert receiver.table_name (tmeta.id_column.getD "")
          (buildInsertData data (tableFieldNames store receiver.table_name))
       else
        WriteOp.insert receiver.table_name
          (buildInsertData data (tableFieldNames store receiver.table_name))] := by
  rw [handleWebhook_eq_processReceiver env store rid req receiver hok hrecv,
    processReceiver_eq_processAfterAuth env store rid req receiver hauth]
  unfold processAfterAuth
  rw [← hasIdValue_eq_spec tmeta data]
  simp only [hdup, Bool.false_eq_true, if_false, hparse, htbl]
  cases env.insertError? <;> rfl

/-- Witness for C5: a concrete delivery whose payload carries a non-null
identity value, yielding an upsert of the filtered row. -/
theorem C5_witness :
    (handleWebhook
        ⟨1000, fun _ => some (Json.obj [("k", Json.num 1), ("z", Json.num 2)]), none⟩
        ⟨[⟨7, "r", "t", "none", none⟩], [⟨"t", some "k"⟩], [⟨"t", "k", "int", true, false⟩], []⟩ 7
        ⟨some [("webhook-id", "id1"), ("webhook-timestamp", "100")], some "b"⟩).writes =
      [if specUpsertCondition ⟨"t", some "k"⟩ (Json.obj [("k", Json.num 1), ("z", Json.num 2)]) then
        WriteOp.upsert "t" "k"
          (buildInsertData (Json.obj [("k", Json.num 1), ("z", Json.num 2)]) ["k"])
       else
        WriteOp.insert "t"
          (buildInsertData (Json.obj [("k", Json.num 1), ("z", Json.num 2)]) ["k"])] :=
  C5_upsert_iff_id_value
    ⟨1000, fun _ => some (Json.obj [("k", Json.num 1), ("z", Json.num 2)]), none⟩
    ⟨[⟨7, "r", "t", "none", none⟩], [⟨"t", some "k"⟩], [⟨"t", "k", "int", true, false⟩], []⟩ 7
    ⟨some [("webhook-id", "id1"), ("webhook-timestamp", "100")], some "b"⟩
    ⟨7, "r", "t", "none", none⟩ (Json.obj [("k", Json.num 1), ("z", Json.num 2)]) ⟨"t", some "k"⟩
    (by decide) rfl (by decide) (by decide) rfl rfl

/-- Row filtering as a fold over the enumerated entries equals a filter. -/
theorem foldl_keep_eq_filter (p : String × Json → Bool) (l acc : List (String × Json)) :
    l.foldl (fun acc kv => if p kv then acc ++ [kv] else acc) acc = acc ++ l.filter p := by
  induction l generalizing acc with
  | nil => simp
  | cons x xs ih =>
    by_cases h : p x = true
    · simp [h, ih, List.filter_cons]
    · simp [h, ih, List.filter_cons]

/-- Claim C6: the row submitted to the store is exactly the payload restricted
to the table's field set — each enumerated payload entry whose key is in the
field set is kept with its value, every other key is dropped without error. -/
theorem C6_row_is_restriction (data : Json) (fieldNames : List String) :
    buildInsertData data fieldNames =
      (jsonEntries data).filter (fun kv => fieldNames.contains kv.1) ∧
    ∀ k v, (k, v) ∈ buildInsertData data fieldNames ↔
      ((k, v) ∈ jsonEntries data ∧ fieldNames.contains k = true) := by
  have main : buildInsertData data fieldNames =
      (jsonEntries data).filter (fun kv => fieldNames.contains kv.1) := by
    unfold buildInsertData
    rw [foldl_keep_eq_filter]
    rfl
  refine ⟨main, fun k v => ?_⟩
  rw [main, List.mem_filter]

/-- Key derivation only inspects the auth mode through equality with `hmac`,
so any other mode derives the same key as mode `none`. -/
theorem deriveIdempotencyKey_non_hmac (rid : Nat) (webhookId webhookSignature : Option String)
    (tsStr body : String) (r : WebhookReceiver) (h : (r.auth_type == "hmac") = false) :
    deriveIdempotencyKey rid webhookId webhookSignature tsStr body r =
      deriveIdempotencyKey rid webhookId webhookSignature tsStr body
        ⟨r.id, r.label, r.table_name, "none", r.secret⟩ := by
  unfold deriveIdempotencyKey
  simp only [h, Bool.false_eq_true, if_false]
  rfl

/-- The post-authentication pipeline only inspects the auth mode through the
derived key, so any non-hmac mode behaves as mode `none`. -/
theorem processAfterAuth_non_hmac (env : Env) (store : Store) (rid : Nat)
    (req : WebhookRequest) (r : WebhookReceiver) (h : (r.auth_type == "hmac") = false) :
    processAfterAuth env store rid req r =
      processAfterAuth env store rid req ⟨r.id, r.label, r.table_name, "none", r.secret⟩ := by
  simp only [processAfterAuth]
  rw [deriveIdempotencyKey_non_hmac rid (reqWebhookId req) (reqSignature req)
    (reqTsStr env req) (req.body?.getD "") r h]

/-- The post-authentication pipeline never answers 401: its only statuses are
200, 400, 404 and 500. -/
theorem processAfterAuth_status_ne_401 (env : Env) (store : Store) (rid : Nat)
    (req : WebhookRequest) (r : WebhookReceiver) :
    (processAfterAuth env store rid req r).response.status ≠ 401 := by
  simp only [processAfterAuth]
  repeat' split
  all_goals simp

/-- Claim C10: a receiver whose auth mode is any string other than exactly
`hmac` (such as `HMAC` or a misspelling) undergoes no signature verification:
its processing is identical to an auth mode of `none`, and it is never
answered 401. -/
theorem C10_non_hmac_is_none (env : Env) (store : Store) (rid : Nat)
    (req : WebhookRequest) (receiver : WebhookReceiver)
    (h : receiver.auth_type ≠ "hmac") :
    processReceiver env store rid req receiver =
      processReceiver env store rid req
        ⟨receiver.id, receiver.label, receiver.table_name, "none", receiver.secret⟩ ∧
    (processReceiver env store rid req receiver).response.status ≠ 401 := by
  have hb : (receiver.auth_type == "hmac") = false := beq_eq_false_iff_ne.mpr h
  have hrw : processReceiver env store rid req receiver =
      processAfterAuth env store rid req receiver := by
    unfold processReceiver
    simp only [hb, Bool.false_eq_true, if_false]
  have hrw2 : processReceiver env store rid req
      ⟨receiver.id, receiver.label, receiver.table_name, "none", receiver.secret⟩ =
      processAfterAuth env store rid req
        ⟨receiver.id, receiver.label, receiver.table_name, "none", receiver.secret⟩ := by
    unfold processReceiver
    simp only [show (("none" : String) == "hmac") = false from rfl, Bool.false_eq_true, if_false]
  constructor
  · rw [hrw, hrw2]
    exact processAfterAuth_non_hmac env store rid req receiver hb
  · rw [hrw]
    exact processAfterAuth_status_ne_401 env store rid req receiver

/-- Witness for C10: auth mode `HMAC` (wrong case) is not hmac mode. -/
theorem C10_witness :
    (processReceiver ⟨1000, fun _ => none, none⟩ ⟨[], [], [], []⟩ 7
        ⟨some [("webhook-id", "id1")], some "b"⟩ ⟨7, "r", "t", "HMAC", some "sek"⟩ =
      processReceiver ⟨1000, fun _ => none, none⟩ ⟨[], [], [], []⟩ 7
        ⟨some [("webhook-id", "id1")], some "b"⟩ ⟨7, "r", "t", "none", some "sek"⟩) ∧
    (processReceiver ⟨1000, fun _ => none, none⟩ ⟨[], [], [], []⟩ 7
        ⟨some [("webhook-id", "id1")], some "b"⟩
        ⟨7, "r", "t", "HMAC", some "sek"⟩).response.status ≠ 401 :=
  C10_non_hmac_is_none ⟨1000, fun _ => none, none⟩ ⟨[], [], [], []⟩ 7
    ⟨some [("webhook-id", "id1")], some "b"⟩ ⟨7, "r", "t", "HMAC", some "sek"⟩ (by decide)
